import Mathlib

/-!
Verification development for the sachetan-bot WhatsApp commerce/support bot.

Shallow embedding of the conversational webhook (src/routes/twilio.js), the
retrieval engine (src/utils/rag.js) and the payment routes (src/unnamed/part_007)
into Lean, together with theorems settling the frozen claims about the program.

Conventions used throughout:
- JavaScript numbers are modelled as rationals (ℚ); JS truthiness on numbers
  collapses 0 / absent / NaN to 0, so "field with 0 meaning absent" is a
  faithful rendering of the Number(x || 0) || 0 idiom of the source.
- Strings are compared after the source has already applied trim().toLowerCase()
  to the inbound body (src/routes/twilio.js line 524), so bodies in the model
  are assumed lowercased.
- Math.round in JS rounds half up: modelled as Int.floor (q + 1/2).
-/

/-! ## String helpers (list-based, kernel friendly) -/

/-- body.startsWith(k) of JS, on the character lists of the strings. -/
def strStarts (s pre : String) : Bool :=
  List.isPrefixOf pre.data s.data

/-- Substring membership over character lists; mirrors the JS
String.prototype.includes used across src/routes/twilio.js. -/
def charsContains : List Char → List Char → Bool
  | _, [] => true
  | [], _ :: _ => false
  | x :: xs, p :: ps => (List.isPrefixOf (p :: ps) (x :: xs)) || charsContains xs (p :: ps)

/-- s.includes(pat) of JS. -/
def strContains (s pat : String) : Bool :=
  charsContains s.data pat.data

/-- JS a || b on numbers: a when truthy (nonzero), else b. -/
def jsOr (a b : ℚ) : ℚ :=
  if a ≠ 0 then a else b

/-- JS a || b on strings: a when nonempty, else b. -/
def jsOrS (a b : String) : String :=
  if a ≠ "" then a else b

/-- Math.round of JS: round half away from zero towards +∞ for the
nonnegative amounts appearing in this program (floor (q + 1/2)). -/
def jsRound (q : ℚ) : ℤ :=
  Int.floor (q + 1 / 2)

/-! ## Retrieval engine: src/utils/rag.js -/

/-- One Pinecone match as consumed by queryRag (src/utils/rag.js lines 213-214):
only the optional metadata text is read back out of a match. -/
structure RagMatch where
  id : String
  text : Option String
  deriving Repr, DecidableEq

/-- ragMatches.map(m => m.metadata?.text || "").filter(Boolean)
(src/utils/rag.js line 214). -/
def matchDocs (ragMatches : List RagMatch) : List String :=
  (ragMatches.map (fun m => m.text.getD "")).filter (fun s => s ≠ "")

/-- Context assembly of queryRag (src/utils/rag.js lines 213-222): doc texts,
then the Tavily web-search text appended whenever it is nonempty, joined by
blank lines.  NOTE: the deployed queryRag has signature
(query, topK = 4, collectionName = DEFAULT_COLLECTION); it accepts no
metadata filter and no strict flag, and it always performs the web search. -/
def queryRagContext (ragMatches : List RagMatch) (webContext : String) : String :=
  let docs := matchDocs ragMatches
  let docs := if webContext ≠ "" then docs ++ [webContext] else docs
  String.intercalate "\n\n" docs

/-- Result record of queryRag (src/utils/rag.js line 225). -/
structure RagResult where
  answer : String
  context : String
  ragMatches : List RagMatch
  deriving Repr, DecidableEq

/-- Pure data flow of queryRag (src/utils/rag.js lines 200-226) given the
ragMatches returned by the vector store and the web-search text returned by
searchTavily; generation is always invoked, on the assembled context, and is
abstracted as the function gen. -/
def queryRag (gen : String → String → String) (query : String)
    (ragMatches : List RagMatch) (webContext : String) : RagResult :=
  let context := queryRagContext ragMatches webContext
  { answer := gen query context, context := context, ragMatches := ragMatches }

/-- adjustToDimension (src/utils/rag.js lines 106-113): keep, truncate, or
zero-pad the vector to the index dimension.  The Array.isArray guard of the
source is vacuous here because the argument is already a list. -/
def adjustToDimension (values : List ℚ) (dim : ℕ) : List ℚ :=
  if values.length = dim then values
  else if values.length > dim then values.take dim
  else values ++ List.replicate (dim - values.length) 0

/-- arr[idx] += v of the embedText fallback loop. -/
def addAt : List ℚ → ℕ → ℚ → List ℚ
  | [], _, _ => []
  | x :: xs, 0, v => (x + v) :: xs
  | x :: xs, n + 1, v => x :: addAt xs n v

/-- Accumulation loop of the embedText fallback (src/utils/rag.js lines 78-83):
for each character position i, add the character code at index i % 1536. -/
def accumGo : List Char → ℕ → List ℚ → List ℚ
  | [], _, arr => arr
  | c :: cs, i, arr => accumGo cs (i + 1) (addAt arr (i % 1536) (c.toNat : ℚ))

/-- The pre-normalisation fallback vector of embedText: a 1536-slot array of
summed character codes (src/utils/rag.js lines 78-83).  The source sums UTF-16
code units via charCodeAt; code points are used here, which agree on the Basic
Multilingual Plane. -/
def fallbackAccum (s : String) : List ℚ :=
  accumGo s.data 0 (List.replicate 1536 0)

/-- The hash-based fallback vector of embedText (src/utils/rag.js lines 73-86):
the accumulated vector divided pointwise by its Euclidean norm.  The norm is a
square root computed in floating point by the source; it is abstracted here as
a parameter, which does not affect the dimension of the result. -/
def embedTextFallback (norm : ℚ) (s : String) : List ℚ :=
  (fallbackAccum s).map (fun v => v / norm)

/-- embedText (src/utils/rag.js lines 63-87): the provider embedding when the
provider call succeeds, otherwise the fallback vector; the try/catch means the
function returns a vector on every input. -/
def embedText (providerResult : Option (List ℚ)) (norm : ℚ) (s : String) : List ℚ :=
  match providerResult with
  | some v => v
  | none => embedTextFallback norm s

/-! ## Message classification: src/routes/twilio.js lines 655-682 -/

/-- greetingKeywords (src/routes/twilio.js lines 656-663). -/
def greetingKeywords : List String :=
  ["hi", "hello", "hey", "hii", "hiii", "hola", "namaste", "namaskar",
   "start", "begin", "restart",
   "good morning", "good evening", "good night",
   "hi bot", "hello bot", "hi sachetan", "hello sachetan",
   "i want", "i need", "interested", "details", "inquiry", "enquiry",
   "saw this on facebook", "saw this on instagram", "fb ad", "insta ad", "ad"]

/-- menuKeywords (src/routes/twilio.js lines 665-671).  The inbound body is
lowercased before the comparison, so the final capitalised entry can never
match; it is kept to mirror the source list. -/
def menuKeywords : List String :=
  ["menu", "main menu", "back", "home", "exit", "end", "stop", "reset", "quit",
   "abort", "leave",
   "thanks", "thank you", "thankyou", "thx", "ty", "thank u",
   "ok", "okay", "cool", "done", "confirmed",
   "thank you for confirming my booking.",
   "go to menu", "Go to Menu"]

/-- The raw isGreeting expression (src/routes/twilio.js line 673): a prefix
match against greetingKeywords, or a short body containing "hi" or "hello". -/
def isGreetingRaw (body : String) : Bool :=
  greetingKeywords.any (fun k => strStarts body k) ||
    (strContains body "hi" && body.data.length < 10) ||
    (strContains body "hello" && body.data.length < 10)

/-- isGreeting after the custom_solutions exception (src/routes/twilio.js
lines 676-682): inside the "custom_solutions" stage, bodies opening with
"i want" / "i need" / "interested" are treated as data, not a reset. -/
def isGreeting (stage body : String) : Bool :=
  if stage = "custom_solutions" &&
      (strStarts body "i want" || strStarts body "i need" ||
        strStarts body "interested") then
    false
  else
    isGreetingRaw body

/-- isMenu (src/routes/twilio.js line 674): exact membership in menuKeywords. -/
def isMenu (body : String) : Bool :=
  menuKeywords.contains body

/-- isConversational (src/routes/twilio.js lines 436-446): purely numeric
bodies and the five short commands are selections; everything else counts as
conversational free text. -/
def isConversational (body : String) : Bool :=
  if body.data ≠ [] && body.data.all Char.isDigit then false
  else if ["yes", "no", "menu", "cancel", "confirm"].contains body then false
  else true

/-- Value of a list of decimal digits. -/
def digitsVal (ds : List Char) : ℕ :=
  ds.foldl (fun a c => a * 10 + (c.toNat - 48)) 0

/-- JS parseInt on an already trimmed body: an optional minus sign followed by
the longest digit prefix; none models NaN. -/
def parseIntJs (s : String) : Option ℤ :=
  match s.data with
  | '-' :: rest =>
      let d := rest.takeWhile Char.isDigit
      if d.isEmpty then none else some (-(digitsVal d : ℤ))
  | cs =>
      let d := cs.takeWhile Char.isDigit
      if d.isEmpty then none else some (digitsVal d : ℤ)

/-! ## Greeting / menu reset: src/routes/twilio.js lines 684-723 -/

/-- The persisted session row: the stage and context columns of
tbl_chat_sessions read and written by the webhook. -/
structure SessRow where
  stage : String
  context : String
  deriving Repr, DecidableEq

/-- Effect of the reset upsert (src/routes/twilio.js line 689):
INSERT INTO tbl_chat_sessions (phone, stage, context) VALUES (?, 'menu', '\x7b\x7d')
ON DUPLICATE KEY UPDATE stage = 'menu', last_message_at = NOW().
For a new phone the inserted row has stage "menu" and context "\x7b\x7d"; for an
existing row the duplicate-key branch updates only stage and last_message_at,
leaving the persisted context column untouched. -/
def resetUpsert (row : Option SessRow) : SessRow :=
  match row with
  | none => { stage := "menu", context := "\x7b\x7d" }
  | some r => { r with stage := "menu" }

/-- In-memory session state relevant to the reset (src/routes/twilio.js
lines 686-687): session.stage = "menu"; session.context = \x7b\x7d. -/
structure MemSession where
  stage : String
  contextKeys : List (String × String)
  deriving Repr, DecidableEq

/-- The in-memory half of the reset (src/routes/twilio.js lines 686-687). -/
def resetMemory (_s : MemSession) : MemSession :=
  { stage := "menu", contextKeys := [] }

/-! ## Webhook turn prefix: rate limiting and manual mode
(src/routes/twilio.js lines 519-565) -/

/-- The throttling notice sent when the per-phone window cap is exceeded
(src/routes/twilio.js line 536); emoji of the source text elided. -/
def throttleNotice : String :=
  "You are sending messages too quickly.\nPlease wait a few seconds so I can assist you properly"

/-- Inbound webhook payload fields consumed by the turn prefix: hasBody is
JS truthiness of req.body.Body (an empty body is falsy and is not logged). -/
structure TurnInput where
  body : String
  hasBody : Bool
  numMedia : ℕ
  deriving Repr, DecidableEq

/-- Observable outcome of the turn prefix: messages sent so far, whether the
user message was logged to tbl_chat_history, whether last_message_at was
refreshed by the manual-mode branch, whether control proceeded past the
manual check into the stage handlers, the updated rate-limit window and the
(unchanged) persisted stage. -/
structure TurnPrefixOut where
  sends : List String
  logged : Bool
  touchedTimestamp : Bool
  proceeded : Bool
  timestamps : List ℕ
  sessionStage : String
  deriving Repr, DecidableEq

/-- Window eviction of the rate limiter (src/routes/twilio.js lines 530-533):
shift timestamps from the front while they are older than 60000 ms. -/
def rateWindow (ts : List ℕ) (now : ℕ) : List ℕ :=
  ts.dropWhile (fun t => now - t > 60000)

/-- The turn prefix of router.post("/") (src/routes/twilio.js lines 521-565):
rate-limit check (lines 526-538), then the user-message log (lines 542-545),
then the manual-mode check (lines 547-562).  A throttled message is answered
with the throttling notice and the handler returns before logging or touching
the session; a manual-mode message refreshes last_message_at only and returns
before any stage handler; otherwise control proceeds. -/
def turnPrefix (ts : List ℕ) (now : ℕ) (stageDb : String) (inp : TurnInput) :
    TurnPrefixOut :=
  let kept := rateWindow ts now
  let window := kept ++ [now]
  if window.length > 10 then
    { sends := [throttleNotice], logged := false, touchedTimestamp := false,
      proceeded := false, timestamps := window, sessionStage := stageDb }
  else if stageDb = "manual" then
    { sends := [], logged := inp.hasBody, touchedTimestamp := true,
      proceeded := false, timestamps := window, sessionStage := stageDb }
  else
    { sends := [], logged := inp.hasBody, touchedTimestamp := true,
      proceeded := true, timestamps := window, sessionStage := stageDb }

/-! ## Catalog shopping order: src/routes/twilio.js lines 1825-1883 and 2016-2038 -/

/-- An order line item as stored on the Order document (src/models/Order.js):
price, quantity and line total, with total the lineTotal field of the claim. -/
structure OrderItem where
  productId : String
  name : String
  price : ℚ
  quantity : ℚ
  total : ℚ
  size : String
  color : String
  deriving Repr, DecidableEq

/-- Order documents as materialised by the webhook. -/
structure OrderDoc where
  items : List OrderItem
  totalAmount : ℚ
  status : String
  deriving Repr, DecidableEq

/-- The pack size of the catalog flow (src/routes/twilio.js line 1826). -/
def packSize : ℚ := 20

/-- The per-piece price of the shop_quantity handler (src/routes/twilio.js
lines 1852-1855): p_current_price / packSize when the pack price is truthy,
else p_current_price || 0 = 0. -/
def shopUnitPrice (pCurrentPrice : ℚ) : ℚ :=
  if pCurrentPrice ≠ 0 then pCurrentPrice / packSize else 0

/-- The single line item of the catalog flow (src/routes/twilio.js
lines 1856-1869): the stored price field is the PACK price while the stored
total is unit price times quantity. -/
def shopItem (productId name : String) (pCurrentPrice : ℚ) (qty : ℕ)
    (size color : String) : OrderItem :=
  { productId := productId, name := name, price := pCurrentPrice,
    quantity := (qty : ℚ), total := shopUnitPrice pCurrentPrice * (qty : ℚ),
    size := size, color := color }

/-- The catalog order materialised by shop_confirm (src/routes/twilio.js
lines 2027-2038) from the draft built in shop_quantity (lines 1871-1875):
items = [item], totalAmount = item total, status PENDING.  No GST is computed
anywhere on this path. -/
def shopOrder (productId name : String) (pCurrentPrice : ℚ) (qty : ℕ)
    (size color : String) : OrderDoc :=
  let item := shopItem productId name pCurrentPrice qty size color
  { items := [item], totalAmount := item.total, status := "PENDING" }

/-! ## Quotation order: src/routes/twilio.js lines 995-1120 -/

/-- Lower-casing used on the product name before the GST category test
((newContext.product || "").toLowerCase(), src/routes/twilio.js line 1068). -/
def charLower (c : Char) : Char :=
  if 'A' ≤ c ∧ c ≤ 'Z' then Char.ofNat (c.toNat + 32) else c

/-- String lower-casing over the character list. -/
def strLower (s : String) : String :=
  String.mk (s.data.map charLower)

/-- One raw entry of newContext.items as parsed out of the CONTEXT_JSON block
(src/routes/twilio.js lines 998-1031).  Numeric fields carry the result of the
Number(x || 0) || 0 coercions of the source, with 0 meaning absent. -/
structure CtxItem where
  quantity : ℚ := 0
  qty : ℚ := 0
  rate : ℚ := 0
  price : ℚ := 0
  ratePerPiece : ℚ := 0
  ratePerPieceSnake : ℚ := 0
  pricePerUnit : ℚ := 0
  total : ℚ := 0
  productId : String := ""
  name : String := ""
  product : String := ""
  size : String := ""
  color : String := ""
  deriving Repr, DecidableEq

/-- The per-item mapping of the quotation builder (src/routes/twilio.js
lines 999-1030): qty and rate through the || chains, line total defaulted to
qty * rate when absent, and null (none) when qty or total is falsy.
ratePerPieceSnake stands for the rate_per_piece key of the source. -/
def ctxItemToOrderItem (ctxProduct : String) (index : ℕ) (it : CtxItem) :
    Option OrderItem :=
  let qty := jsOr it.quantity it.qty
  let rate := jsOr it.rate (jsOr it.price (jsOr it.ratePerPiece
    (jsOr it.ratePerPieceSnake it.pricePerUnit)))
  let total0 := it.total
  let total := if total0 = 0 ∧ qty ≠ 0 ∧ rate ≠ 0 then qty * rate else total0
  if qty = 0 ∨ total = 0 then none
  else some
    { productId := jsOrS it.productId ("QUOTE-" ++ toString (index + 1)),
      name := jsOrS it.name (jsOrS it.product (jsOrS ctxProduct "Quotation Item")),
      price := rate, quantity := qty, total := total,
      size := it.size, color := it.color }

/-- newContext.items.map((it, index) => ...).filter(Boolean)
(src/routes/twilio.js lines 999-1031). -/
def quoteItemsFromCtx (ctxProduct : String) (its : List CtxItem) : List OrderItem :=
  (its.enum.map (fun p => ctxItemToOrderItem ctxProduct p.1 p.2)).filterMap id

/-- The extracted order context consumed by the quotation builder
(src/routes/twilio.js lines 995-1079), after the Number coercions. -/
structure QuoteCtx where
  items : List CtxItem := []
  quantity : ℚ := 0
  quotedRate : ℚ := 0
  rate : ℚ := 0
  pricePerUnit : ℚ := 0
  total : ℚ := 0
  totalAmount : ℚ := 0
  subtotal : ℚ := 0
  gst : ℚ := 0
  product : String := ""
  productId : String := ""
  size : String := ""
  color : String := ""
  deriving Repr, DecidableEq

/-- The single-item fallback of the quotation builder (src/routes/twilio.js
lines 1034-1057), used when the mapped item list came out empty. -/
def quoteFallbackItem (ctx : QuoteCtx) : OrderItem :=
  let qty := ctx.quantity
  let rate := jsOr ctx.quotedRate (jsOr ctx.rate ctx.pricePerUnit)
  let total := if ctx.total = 0 ∧ qty ≠ 0 ∧ rate ≠ 0 then qty * rate else ctx.total
  let finalQty := jsOr qty 1
  let finalTotal := jsOr total (rate * finalQty)
  { productId := jsOrS ctx.productId "QUOTE-1",
    name := jsOrS ctx.product "Custom Packaging",
    price := jsOr rate finalTotal, quantity := finalQty, total := finalTotal,
    size := ctx.size, color := ctx.color }

/-- Item list of the quotation order (src/routes/twilio.js lines 996-1057). -/
def quoteItems (ctx : QuoteCtx) : List OrderItem :=
  let items := quoteItemsFromCtx ctx.product ctx.items
  if items = [] then [quoteFallbackItem ctx] else items

/-- GST rate selection (src/routes/twilio.js lines 1066-1071): 18% exactly when
the user type is "Store Owner/ Bulk Buyer" and the lowercased product name
contains "mdf" or "base"; otherwise 5%. -/
def gstRateFor (userType productName : String) : ℚ :=
  let isBulkBuyer := userType = "Store Owner/ Bulk Buyer"
  let p := strLower productName
  let isMDF := strContains p "mdf" || strContains p "base"
  if isBulkBuyer ∧ isMDF then 18 / 100 else 5 / 100

/-- Subtotal of the quotation order (src/routes/twilio.js lines 1059-1062):
sum of the line totals, overridden by a positive newContext.subtotal. -/
def quoteSubtotal (ctx : QuoteCtx) (items : List OrderItem) : ℚ :=
  let s := (items.map (fun it => it.total)).sum
  if ctx.subtotal > 0 then ctx.subtotal else s

/-- GST of the quotation order (src/routes/twilio.js lines 1064-1073):
newContext.gst when truthy, else Math.round(subtotal * gstRate) when the
subtotal is truthy, else 0. -/
def quoteGst (userType : String) (ctx : QuoteCtx) (subtotal : ℚ) : ℚ :=
  if ctx.gst = 0 ∧ subtotal ≠ 0 then
    ((jsRound (subtotal * gstRateFor userType ctx.product) : ℤ) : ℚ)
  else ctx.gst

/-- totalAmount of the quotation order (src/routes/twilio.js lines 1075-1079):
Number(newContext.total || newContext.totalAmount || 0) || 0, defaulted to
subtotal + gst when absent and the subtotal is truthy. -/
def quoteTotalAmount (ctx : QuoteCtx) (subtotal gst : ℚ) : ℚ :=
  let t := jsOr ctx.total ctx.totalAmount
  if t = 0 ∧ subtotal ≠ 0 then subtotal + gst else t

/-- The quotation Order document materialised by the custom_solutions handler
(src/routes/twilio.js lines 1111-1121). -/
def quotationOrder (userType : String) (ctx : QuoteCtx) : OrderDoc :=
  let items := quoteItems ctx
  let subtotal := quoteSubtotal ctx items
  let gst := quoteGst userType ctx subtotal
  { items := items, totalAmount := quoteTotalAmount ctx subtotal gst,
    status := "PENDING" }

/-! ## Bookings and slot capacity
(src/routes/twilio.js lines 376-405, 2904-3157; src/unnamed/part_007) -/

/-- Booking status values used by the program. -/
inductive BkStatus where
  | pending_payment
  | confirmed
  | cancelled
  | expired
  deriving Repr, DecidableEq

/-- A booking restricted to the fields the capacity logic reads: the
(date, slot, court) key is abstracted as a single natural key. -/
structure Bkg where
  key : ℕ
  playerCount : ℕ
  status : BkStatus
  deriving Repr, DecidableEq

/-- booking.playerCount || 1 (src/routes/twilio.js line 386). -/
def contrib (b : Bkg) : ℕ :=
  if b.playerCount = 0 then 1 else b.playerCount

/-- Booked players for a slot key over bookings with status confirmed or
pending_payment (src/routes/twilio.js lines 376-388). -/
def bookedPlayers (st : List Bkg) (k : ℕ) : ℕ :=
  ((st.filter (fun b => b.key = k ∧
    (b.status = BkStatus.confirmed ∨ b.status = BkStatus.pending_payment))).map contrib).sum

/-- getAvailablePlayersForSlot (src/routes/twilio.js lines 376-390):
4 - bookedPlayers, as a JS number (may be negative). -/
def getAvailablePlayersForSlot (st : List Bkg) (k : ℕ) : ℤ :=
  4 - (bookedPlayers st k : ℤ)

/-- isSlotAvailableForPlayers (src/routes/twilio.js lines 393-405). -/
def isSlotAvailableForPlayers (st : List Bkg) (k : ℕ) (requiredPlayers : ℕ) : Bool :=
  getAvailablePlayersForSlot st k ≥ (requiredPlayers : ℤ)

/-- Replace the booking at an index by a function of itself. -/
def updateAt : List Bkg → ℕ → (Bkg → Bkg) → List Bkg
  | [], _, _ => []
  | b :: bs, 0, f => f b :: bs
  | b :: bs, n + 1, f => b :: updateAt bs n f

/-- Chat-flow booking creation (src/routes/twilio.js lines 2938-3049): the
choose_court handler only offers courts for which isSlotAvailableForPlayers
holds and then creates the booking with status pending_payment; modelled as a
guarded append, returning the unchanged state and false when the guard fails. -/
def chatCreate (st : List Bkg) (k : ℕ) (p : ℕ) : List Bkg × Bool :=
  if isSlotAvailableForPlayers st k p then
    (st ++ [{ key := k, playerCount := p, status := BkStatus.pending_payment }], true)
  else (st, false)

/-- The five-minute expiry sweep (src/routes/twilio.js lines 493-511): a
pending_payment booking older than five minutes is marked expired; the age
condition is abstracted, the status filter of the query is kept. -/
def cronExpire (st : List Bkg) (i : ℕ) : List Bkg :=
  updateAt st i (fun b =>
    if b.status = BkStatus.pending_payment then { b with status := BkStatus.expired } else b)

/-- The Razorpay webhook (src/unnamed/part_007 lines 640-686): any booking
named in the payment notes that is not already confirmed is set to confirmed;
no capacity check is performed. -/
def webhookConfirm (st : List Bkg) (i : ℕ) : List Bkg :=
  updateAt st i (fun b =>
    if b.status ≠ BkStatus.confirmed then { b with status := BkStatus.confirmed } else b)

/-- Players booked by OTHER confirmed bookings on the same key, as counted by
router.post("/verify") (src/unnamed/part_007 lines 379-391): only status
"confirmed" rows distinct from the booking at index i are counted. -/
def verifyBookedPlayers (st : List Bkg) (i : ℕ) (k : ℕ) : ℕ :=
  ((st.enum.filter (fun p => p.1 ≠ i ∧ p.2.key = k ∧
    p.2.status = BkStatus.confirmed)).map (fun p => contrib p.2)).sum

/-- router.post("/verify") capacity check and confirmation (src/unnamed/part_007
lines 335-417).  shouldCheck abstracts the shouldCheckBookings time window
(lines 357-375); when the check applies and 4 minus the other confirmed
players is below the playerCount, the request is rejected with that exact
available count and the state is unchanged; otherwise the booking is set to
confirmed regardless of its current status.  The Razorpay signature fields of
the request are never read by this handler. -/
def verifyConfirm (st : List Bkg) (i : ℕ) (shouldCheck : Bool) :
    List Bkg × Option ℤ :=
  match st.get? i with
  | none => (st, none)
  | some b =>
      let availablePlayers : ℤ := 4 - (verifyBookedPlayers st i b.key : ℤ)
      if shouldCheck ∧ availablePlayers < (b.playerCount : ℤ) then
        (st, some availablePlayers)
      else
        (updateAt st i (fun b0 => { b0 with status := BkStatus.confirmed }), none)

/-! ## payment_pending stage: src/routes/twilio.js lines 3058-3157 -/

/-- Outcome of a payment_pending turn on the session stage plus the booking
store. -/
structure PaymentPendingOut where
  bookings : List Bkg
  stage : String
  deriving Repr, DecidableEq

/-- A payment_pending turn for a text-only inbound body (src/routes/twilio.js
lines 655-723 and 3058-3157): the greeting/menu reset runs first; otherwise a
body containing "paid" re-checks capacity with isSlotAvailableForPlayers —
which counts the pending booking itself — and confirms the booking when the
check passes, cancelling it otherwise; a body containing "cancel" cancels; a
body equal to "menu" returns to the menu; anything else re-prompts.  No
payment id or signature is consulted anywhere on this path.  When the stored
booking id resolves to no booking the source replies "Booking not found" and
drops the in-memory session; the store is left unchanged here. -/
def paymentPendingTurn (st : List Bkg) (i : ℕ) (body : String) : PaymentPendingOut :=
  if isGreeting "payment_pending" body || isMenu body then
    { bookings := st, stage := "menu" }
  else if strContains body "paid" then
    match st.get? i with
    | none => { bookings := st, stage := "payment_pending" }
    | some b =>
        if isSlotAvailableForPlayers st b.key b.playerCount then
          { bookings := updateAt st i (fun b0 => { b0 with status := BkStatus.confirmed }),
            stage := "booking_confirmed" }
        else
          { bookings := updateAt st i (fun b0 => { b0 with status := BkStatus.cancelled }),
            stage := "menu" }
  else if body = "cancel" || strContains body "cancel" then
    { bookings := updateAt st i (fun b0 => { b0 with status := BkStatus.cancelled }),
      stage := "menu" }
  else if body = "menu" then
    { bookings := st, stage := "menu" }
  else
    { bookings := st, stage := "payment_pending" }

/-! ## Interrupt and resume: src/routes/twilio.js lines 1567-1667 -/

/-- In-memory session fields driven by the interrupt flow. -/
structure Sess where
  stage : String
  previousStage : Option String
  pendingQuestion : Option String
  deriving Repr, DecidableEq

/-- The interrupt prompt of the shopping handlers (src/routes/twilio.js
line 1628); the quoted body is interpolated by the source. -/
def interruptPrompt (body : String) : String :=
  "You are currently ordering. Do you want to cancel and ask: \x22" ++ body ++ "\x22?"

/-- isNaN(idx) || idx < 1 || idx > options.length of the shopping handlers
(src/routes/twilio.js line 1621 and its copies). -/
def shopSelectionInvalid (optsLen : ℕ) (body : String) : Bool :=
  match parseIntJs body with
  | none => true
  | some idx => idx < 1 || idx > (optsLen : ℤ)

/-- The shop_top_category handler (src/routes/twilio.js lines 1618-1667) for a
text body, with the category list and the mid-category query result abstracted
by their lengths.  Invalid selections that look conversational stash the
current stage and the question and move to confirm_exit_flow; other invalid
selections re-prompt in place; a valid selection advances (the dynamically
built subcategory list message of the valid branch is elided). -/
def shopTopCategoryStep (s : Sess) (catsLen midCatsLen : ℕ) (body : String) :
    Sess × List String :=
  if shopSelectionInvalid catsLen body then
    if isConversational body then
      ({ stage := "confirm_exit_flow", previousStage := some s.stage,
         pendingQuestion := some body }, [interruptPrompt body])
    else
      (s, ["Invalid selection. Reply with the category number."])
  else if midCatsLen = 0 then
    ({ s with stage := "menu" }, ["No subcategories in this category. Reply 'menu' to go back."])
  else
    ({ s with stage := "shop_mid_category" }, [])

/-- Outcome of a confirm_exit_flow turn: the new session, the question routed
to the RAG engine when the interrupt is accepted, and the fixed prompt sent
when it is declined. -/
structure ConfirmExitOut where
  sess : Sess
  ragQuery : Option String
  sends : List String
  deriving Repr, DecidableEq

/-- The confirm_exit_flow handler (src/routes/twilio.js lines 1567-1615):
"1" or "yes" moves to custom_solutions and feeds the stashed question to
queryRag; any other reply restores the stashed previousStage and asks for a
selection.  Both branches clear the stash.  When previousStage was never
stashed the source assigns undefined to the stage, modelled by the string
"undefined". -/
def confirmExitStep (s : Sess) (body : String) : ConfirmExitOut :=
  if body = "1" || body = "yes" then
    { sess := { stage := "custom_solutions", previousStage := none,
                pendingQuestion := none },
      ragQuery := s.pendingQuestion, sends := [] }
  else
    { sess := { stage := s.previousStage.getD "undefined", previousStage := none,
                pendingQuestion := none },
      ragQuery := none,
      sends := ["Okay, continuing with your order. Please make a selection."] }

/-! ## Payment verification handlers: src/unnamed/part_007 lines 257-332 and 498-515 -/

/-- Order status and payment id as touched by the verification handlers. -/
structure OrderPayState where
  status : String
  paymentId : Option String
  deriving Repr, DecidableEq

/-- router.post("/verify-product") (src/unnamed/part_007 lines 257-332):
recompute the HMAC-SHA256 of razorpay_order_id + "|" + razorpay_payment_id
under the shared secret — abstracted as the function hmacSig — compare it to
the provided signature, and only on equality mark the order PAID; on mismatch
respond with an error and leave the order unchanged.  The boolean reports
success. -/
def verifyProduct (hmacSig : String → String) (o : OrderPayState)
    (razorpayOrderId razorpayPaymentId razorpaySignature : String) :
    OrderPayState × Bool :=
  if hmacSig (razorpayOrderId ++ "|" ++ razorpayPaymentId) = razorpaySignature then
    ({ o with status := "PAID", paymentId := some razorpayPaymentId }, true)
  else
    (o, false)

/-- router.post("/product/verify") (src/unnamed/part_007 lines 498-515): the
order named in the request is marked PAID unconditionally; the
razorpay_signature field of the request body is destructured but never
compared against anything. -/
def productVerify (o : OrderPayState) (razorpayPaymentId : String) : OrderPayState :=
  { o with status := "PAID", paymentId := some razorpayPaymentId }

/-! ## Greeting reset step (src/routes/twilio.js lines 684-689) -/

/-- The reset branch of the webhook (src/routes/twilio.js lines 684-689): when
the body classifies as a greeting or a menu keyword, the in-memory session and
the persisted row are reset; otherwise control continues to the stage
handlers (none). -/
def greetingResetStep (stage body : String) (m : MemSession) (row : Option SessRow) :
    Option (MemSession × SessRow) :=
  if isGreeting stage body || isMenu body then
    some (resetMemory m, resetUpsert row)
  else
    none

/-- A fresh session sitting in the shop_top_category stage. -/
def sessShopTop : Sess :=
  { stage := "shop_top_category", previousStage := none, pendingQuestion := none }

/-! ## Theorems -/

/-- addAt never changes the length of the array. -/
theorem addAt_length (l : List ℚ) (i : ℕ) (v : ℚ) : (addAt l i v).length = l.length := by
  induction l generalizing i with
  | nil => simp [addAt]
  | cons x xs ih =>
      cases i with
      | zero => simp [addAt]
      | succ n => simp [addAt, ih]

/-- The fallback accumulation loop never changes the length of the array. -/
theorem accumGo_length (cs : List Char) (i : ℕ) (arr : List ℚ) :
    (accumGo cs i arr).length = arr.length := by
  induction cs generalizing i arr with
  | nil => simp [accumGo]
  | cons c cs ih => simp [accumGo, ih, addAt_length]

/-- Claim C9: embedText is total by construction; when the embedding provider
is unavailable it returns the deterministic hash-based fallback vector, which
has the fixed dimension 1536 for every input text and every normalisation
factor; and adjustToDimension returns a vector of exactly the requested index
dimension for every input vector, so every vector sent to the store has the
index dimension. -/
theorem C9_embed_total_dimension :
    (∀ (norm : ℚ) (s : String), embedText none norm s = embedTextFallback norm s) ∧
    (∀ (norm : ℚ) (s : String), (embedTextFallback norm s).length = 1536) ∧
    (∀ (values : List ℚ) (dim : ℕ), (adjustToDimension values dim).length = dim) := by
  refine ⟨fun norm s => rfl, fun norm s => ?_, fun values dim => ?_⟩
  · simp only [embedTextFallback, fallbackAccum, List.length_map, accumGo_length,
      List.length_replicate]
  · unfold adjustToDimension
    split_ifs with h1 h2
    · exact h1
    · simp [List.length_take]
      omega
    · simp [List.length_append, List.length_replicate]
      omega

/-- Claim C1: code bug witness.  The deployed queryRag (src/utils/rag.js
lines 200-226) accepts no strict flag and no metadata filter; evaluated with
zero matches — the situation of a filter matching no documents — and an
available web search, its context is the web-search text rather than the
empty string, and the answer is produced by invoking the generator on that
context rather than by skipping generation and returning the canned
no-information answer expected by the spec and by the repo test that calls
queryRag(query, 4, undefined, filter, strict). -/
theorem C1_queryRag_ignores_strict_at_failing_input :
    (queryRag (fun _ c => "GEN " ++ c) "cake box" []
        "[Web Search] Sachetan Packaging: result").context =
      "[Web Search] Sachetan Packaging: result" ∧
    "[Web Search] Sachetan Packaging: result" ≠ "" ∧
    (queryRag (fun _ c => "GEN " ++ c) "cake box" []
        "[Web Search] Sachetan Packaging: result").answer =
      "GEN " ++ "[Web Search] Sachetan Packaging: result" := by
  refine ⟨?_, by decide, ?_⟩ <;> rfl

/-- A quotation line item built without an explicit total override satisfies
lineTotal = rate × quantity. -/
theorem ctxItemToOrderItem_lineTotal (cp : String) (idx : ℕ) (it : CtxItem)
    (oi : OrderItem) (h0 : it.total = 0)
    (h : ctxItemToOrderItem cp idx it = some oi) :
    oi.total = oi.price * oi.quantity := by
  by_cases hq : jsOr it.quantity it.qty = 0
  · simp [ctxItemToOrderItem, hq, h0] at h
  · by_cases hr : jsOr it.rate (jsOr it.price (jsOr it.ratePerPiece
        (jsOr it.ratePerPieceSnake it.pricePerUnit))) = 0
    · simp [ctxItemToOrderItem, hq, hr, h0] at h
    · have hmul : jsOr it.quantity it.qty * jsOr it.rate (jsOr it.price
          (jsOr it.ratePerPiece (jsOr it.ratePerPieceSnake it.pricePerUnit))) ≠ 0 :=
        mul_ne_zero hq hr
      simp [ctxItemToOrderItem, hq, hr, h0, hmul] at h
      rw [← h]
      ring

/-- The fallback quotation item built without an explicit total override
satisfies lineTotal = rate × quantity. -/
theorem quoteFallbackItem_lineTotal (ctx : QuoteCtx) (h0 : ctx.total = 0) :
    (quoteFallbackItem ctx).total =
      (quoteFallbackItem ctx).price * (quoteFallbackItem ctx).quantity := by
  unfold quoteFallbackItem
  set r := jsOr ctx.quotedRate (jsOr ctx.rate ctx.pricePerUnit) with hrdef
  by_cases hq : ctx.quantity = 0
  · by_cases hr : r = 0 <;> simp [jsOr, h0, hq, hr]
  · by_cases hr : r = 0
    · simp [jsOr, h0, hq, hr]
    · have hqr : ctx.quantity * r ≠ 0 := mul_ne_zero hq hr
      simp [jsOr, h0, hq, hr, hqr]
      ring

/-- Every item of a quotation order built without per-item total overrides
satisfies lineTotal = rate × quantity. -/
theorem quoteItems_lineTotal (ctx : QuoteCtx) (h0 : ctx.total = 0)
    (hall : ∀ it ∈ ctx.items, it.total = 0) :
    ∀ oi ∈ quoteItems ctx, oi.total = oi.price * oi.quantity := by
  intro oi hoi
  unfold quoteItems at hoi
  by_cases hemp : quoteItemsFromCtx ctx.product ctx.items = []
  · simp [hemp] at hoi
    subst hoi
    exact quoteFallbackItem_lineTotal ctx h0
  · simp [hemp] at hoi
    unfold quoteItemsFromCtx at hoi
    rw [List.mem_filterMap] at hoi
    obtain ⟨x, hx, hxo⟩ := hoi
    rw [List.mem_map] at hx
    obtain ⟨p, hp, rfl⟩ := hx
    have hmem : p.2 ∈ ctx.items := by
      have hg := List.mem_enum_iff_getElem?.1 hp
      exact List.getElem?_mem hg
    exact ctxItemToOrderItem_lineTotal ctx.product p.1 p.2 oi (hall _ hmem) hxo

/-- Claim C2: counterexample.  The catalog shopping order for a 100-rupee pack
of 20 pieces bought by a Homebaker has totalAmount 100 with no GST applied,
whereas the claim requires GST at 5% before totaling, which would give 105;
and a Store Owner/ Bulk Buyer quotation for the non-MDF product "wooden base"
(quantity 100 at rate 10) is taxed by the code at 18% (total 1180) although
the claim reserves 18% for MDF cake base and prescribes 5% (total 1050)
otherwise. -/
theorem C2_counterexample :
    (shopOrder "P1" "Cake Box" 100 20 "" "").totalAmount = 100 ∧
    (100 : ℚ) + ((jsRound (100 * (5 / 100)) : ℤ) : ℚ) = 105 ∧
    (shopOrder "P1" "Cake Box" 100 20 "" "").totalAmount ≠ 105 ∧
    (quotationOrder "Store Owner/ Bulk Buyer"
      { quantity := 100, quotedRate := 10, product := "wooden base" }).totalAmount = 1180 ∧
    (1000 : ℚ) + ((jsRound (1000 * (5 / 100)) : ℤ) : ℚ) = 1050 ∧
    (quotationOrder "Store Owner/ Bulk Buyer"
      { quantity := 100, quotedRate := 10, product := "wooden base" }).totalAmount ≠ 1050 := by
  have hq : (quotationOrder "Store Owner/ Bulk Buyer"
      { quantity := 100, quotedRate := 10, product := "wooden base" }).totalAmount = 1180 := by
    have hc : strContains (strLower "wooden base") "base" = true := by decide
    simp [quotationOrder, quoteItems, quoteItemsFromCtx, quoteFallbackItem,
      quoteSubtotal, quoteGst, quoteTotalAmount, gstRateFor, jsOr, hc]
    norm_num [jsRound]
  have hs : (shopOrder "P1" "Cake Box" 100 20 "" "").totalAmount = 100 := by
    simp [shopOrder, shopItem, shopUnitPrice, packSize]
  refine ⟨hs, by norm_num [jsRound], by rw [hs]; norm_num, hq, by norm_num [jsRound],
    by rw [hq]; norm_num⟩

/-- Claim C2 as amended: in the catalog shopping order the line total is the
per-piece price (pack price divided by 20) times the quantity and totalAmount
is the sum of the line totals with no GST applied; in the quotation order,
when no explicit total, totalAmount, subtotal or gst override is supplied,
every line item satisfies lineTotal = rate × quantity, and totalAmount equals
the sum of line totals plus GST rounded to the rupee at 18% when the user type
is "Store Owner/ Bulk Buyer" and the product name contains "mdf" or "base",
else at 5%. -/
theorem C2_order_totals_amended :
    (∀ (pid nm : String) (p : ℚ) (q : ℕ) (sz cl : String), p ≠ 0 →
      (shopOrder pid nm p q sz cl).totalAmount = p / 20 * (q : ℚ) ∧
      (shopOrder pid nm p q sz cl).totalAmount =
        (((shopOrder pid nm p q sz cl).items.map (fun it => it.total)).sum)) ∧
    (∀ (userType : String) (ctx : QuoteCtx), ctx.total = 0 → ctx.totalAmount = 0 →
      ctx.subtotal = 0 → ctx.gst = 0 → (∀ it ∈ ctx.items, it.total = 0) →
      (∀ oi ∈ quoteItems ctx, oi.total = oi.price * oi.quantity) ∧
      (((quoteItems ctx).map (fun it => it.total)).sum ≠ 0 →
        (quotationOrder userType ctx).totalAmount =
          ((quoteItems ctx).map (fun it => it.total)).sum +
            ((jsRound (((quoteItems ctx).map (fun it => it.total)).sum *
              gstRateFor userType ctx.product) : ℤ) : ℚ))) := by
  constructor
  · intro pid nm p q sz cl hp
    constructor
    · simp [shopOrder, shopItem, shopUnitPrice, packSize, hp]
    · simp [shopOrder, shopItem]
  · intro userType ctx h0 hta hsub hgst hall
    refine ⟨quoteItems_lineTotal ctx h0 hall, fun hs => ?_⟩
    have hsubtotal : quoteSubtotal ctx (quoteItems ctx) =
        ((quoteItems ctx).map (fun it => it.total)).sum := by
      simp [quoteSubtotal, hsub]
    have hgst2 : quoteGst userType ctx (((quoteItems ctx).map (fun it => it.total)).sum) =
        ((jsRound (((quoteItems ctx).map (fun it => it.total)).sum *
          gstRateFor userType ctx.product) : ℤ) : ℚ) := by
      unfold quoteGst
      rw [if_pos ⟨hgst, hs⟩]
    have ht : jsOr ctx.total ctx.totalAmount = 0 := by simp [jsOr, h0, hta]
    simp only [quotationOrder]
    rw [hsubtotal]
    simp only [quoteTotalAmount, ht]
    rw [if_pos (⟨by trivial, hs⟩), hgst2]

/-- Claim C2 witness: the amended order-total theorem applied to a concrete
catalog order (pack price 100, quantity 20) and to a concrete Homebaker
quotation (quantity 100 at rate 2 for a cake box). -/
theorem C2_order_totals_amended_witness :
    (shopOrder "P1" "Cake Box" 100 20 "" "").totalAmount = 100 / 20 * (20 : ℚ) ∧
    (quotationOrder "Homebakers"
      { quantity := 100, quotedRate := 2, product := "cake box" }).totalAmount =
      ((quoteItems { quantity := 100, quotedRate := 2, product := "cake box" }).map
        (fun it => it.total)).sum +
        ((jsRound (((quoteItems { quantity := 100, quotedRate := 2, product := "cake box" }).map (fun it => it.total)).sum *
          gstRateFor "Homebakers" "cake box") : ℤ) : ℚ) := by
  constructor
  · exact (C2_order_totals_amended.1 "P1" "Cake Box" 100 20 "" "" (by norm_num)).1
  · exact (C2_order_totals_amended.2 "Homebakers"
      { quantity := 100, quotedRate := 2, product := "cake box" } rfl rfl rfl rfl
      (by simp)).2
      (by norm_num [quoteItems, quoteItemsFromCtx, quoteFallbackItem, jsOr])

/-- Claim C3: counterexample.  A four-player booking is created through the
chat flow, expired by the five-minute sweep, replaced by a second four-player
pending booking through the chat flow (the guard passes because expired
bookings are not counted), and then the first booking is confirmed by the
Razorpay webhook, which performs no capacity check: the slot then carries
8 booked players across confirmed and pending_payment bookings, exceeding the
capacity of 4. -/
theorem C3_counterexample :
    (chatCreate [] 0 4).2 = true ∧
    (chatCreate (cronExpire (chatCreate [] 0 4).1 0) 0 4).2 = true ∧
    bookedPlayers
      (webhookConfirm (chatCreate (cronExpire (chatCreate [] 0 4).1 0) 0 4).1 0) 0 = 8 ∧
    4 < bookedPlayers
      (webhookConfirm (chatCreate (cronExpire (chatCreate [] 0 4).1 0) 0 4).1 0) 0 := by
  refine ⟨by decide, by decide, by decide, by decide⟩

/-- Claim C3 as amended: booking creation through the chat flow preserves the
capacity invariant — when the confirmed-plus-pending player sum for a slot key
is at most 4, it stays at most 4 after a creation attempt, which is rejected
by the isSlotAvailableForPlayers guard otherwise — and the /verify endpoint,
whose capacity count covers only OTHER bookings with status confirmed,
rejects an over-capacity confirmation with exactly the remaining capacity it
computed, leaving the state unchanged; the payment webhook, however, confirms
without any capacity check, so the global invariant can be violated. -/
theorem C3_capacity_amended :
    (∀ (st : List Bkg) (k p : ℕ), 1 ≤ p → bookedPlayers st k ≤ 4 →
      bookedPlayers (chatCreate st k p).1 k ≤ 4) ∧
    (∀ (st : List Bkg) (i : ℕ) (b : Bkg), st.get? i = some b →
      4 - (verifyBookedPlayers st i b.key : ℤ) < (b.playerCount : ℤ) →
      verifyConfirm st i true = (st, some (4 - (verifyBookedPlayers st i b.key : ℤ)))) := by
  constructor
  · intro st k p hp hinv
    unfold chatCreate
    split_ifs with h
    · have hp0 : p ≠ 0 := by omega
      have hx : bookedPlayers
          (st ++ [{ key := k, playerCount := p, status := BkStatus.pending_payment }]) k =
          bookedPlayers st k + p := by
        simp [bookedPlayers, List.filter_append, contrib, hp0]
      unfold isSlotAvailableForPlayers getAvailablePlayersForSlot at h
      simp only [ge_iff_le, decide_eq_true_eq] at h
      simp only [hx]
      omega
    · simpa using hinv
  · intro st i b hb hlt
    unfold verifyConfirm
    rw [hb]
    simp only []
    rw [if_pos ⟨by trivial, hlt⟩]

/-- Claim C3 witness: the amended capacity theorem applied to a concrete
two-player creation over a slot holding two pending players, and to a
concrete /verify rejection over a slot whose other confirmed booking already
holds four players, reporting exactly zero remaining capacity. -/
theorem C3_capacity_amended_witness :
    bookedPlayers (chatCreate [⟨0, 2, BkStatus.pending_payment⟩] 0 2).1 0 ≤ 4 ∧
    verifyConfirm [⟨0, 4, BkStatus.confirmed⟩, ⟨0, 2, BkStatus.pending_payment⟩] 1 true =
      ([⟨0, 4, BkStatus.confirmed⟩, ⟨0, 2, BkStatus.pending_payment⟩], some 0) := by
  constructor
  · exact C3_capacity_amended.1 [⟨0, 2, BkStatus.pending_payment⟩] 0 2 (by decide) (by decide)
  · have h := C3_capacity_amended.2
      [⟨0, 4, BkStatus.confirmed⟩, ⟨0, 2, BkStatus.pending_payment⟩] 1
      ⟨0, 2, BkStatus.pending_payment⟩ (by decide) (by decide)
    rw [h]
    decide

/-- Claim C4: counterexample.  With the session stage stored as "manual", the
eleventh message inside the 60-second window is answered with the throttling
notice — an automated reply — and neither last_message_at nor the chat history
is updated, because the rate limiter runs before the manual-mode check. -/
theorem C4_counterexample :
    (turnPrefix (List.replicate 10 1000) 1000 "manual"
      { body := "x", hasBody := true, numMedia := 0 }).sends = [throttleNotice] ∧
    throttleNotice ≠ "" ∧
    (turnPrefix (List.replicate 10 1000) 1000 "manual"
      { body := "x", hasBody := true, numMedia := 0 }).touchedTimestamp = false ∧
    (turnPrefix (List.replicate 10 1000) 1000 "manual"
      { body := "x", hasBody := true, numMedia := 0 }).logged = false := by
  refine ⟨by decide, by decide, by decide, by decide⟩

/-- Claim C4 as amended: while the stored stage is "manual", any inbound
message that passes the rate limiter refreshes only last_message_at, logs the
user message exactly when a text body is present, sends no reply, leaves the
stage unchanged, and never reaches the stage handlers; a message beyond the
rate limit is instead answered with the throttling notice before the manual
check runs. -/
theorem C4_manual_absorption_amended :
    ∀ (ts : List ℕ) (now : ℕ) (inp : TurnInput),
      (rateWindow ts now ++ [now]).length ≤ 10 →
      (turnPrefix ts now "manual" inp).sends = [] ∧
      (turnPrefix ts now "manual" inp).touchedTimestamp = true ∧
      (turnPrefix ts now "manual" inp).logged = inp.hasBody ∧
      (turnPrefix ts now "manual" inp).proceeded = false ∧
      (turnPrefix ts now "manual" inp).sessionStage = "manual" := by
  intro ts now inp h
  simp only [turnPrefix]
  rw [if_neg (by omega)]
  simp

/-- Claim C4 witness: the amended manual-absorption theorem applied to a
first message from a quiet phone number. -/
theorem C4_manual_absorption_amended_witness :
    (turnPrefix [] 0 "manual" { body := "hello", hasBody := true, numMedia := 0 }).sends = [] ∧
    (turnPrefix [] 0 "manual" { body := "hello", hasBody := true, numMedia := 0 }).touchedTimestamp = true ∧
    (turnPrefix [] 0 "manual" { body := "hello", hasBody := true, numMedia := 0 }).logged = true ∧
    (turnPrefix [] 0 "manual" { body := "hello", hasBody := true, numMedia := 0 }).proceeded = false ∧
    (turnPrefix [] 0 "manual" { body := "hello", hasBody := true, numMedia := 0 }).sessionStage = "manual" := by
  exact C4_manual_absorption_amended [] 0
    { body := "hello", hasBody := true, numMedia := 0 } (by decide)

/-- Claim C8: for every phone the inbound messages are capped by a sliding
60-second window of 10; a message arriving when the evicted window already
holds 10 or more timestamps is answered with the throttling notice only,
reaches no stage handler, is not logged, does not touch last_message_at and
leaves the stored stage unchanged, while a message within the cap is never
answered with the throttling notice by the prefix. -/
theorem C8_rate_limit :
    ∀ (ts : List ℕ) (now : ℕ) (stageDb : String) (inp : TurnInput),
      (10 ≤ (rateWindow ts now).length →
        (turnPrefix ts now stageDb inp).sends = [throttleNotice] ∧
        (turnPrefix ts now stageDb inp).proceeded = false ∧
        (turnPrefix ts now stageDb inp).logged = false ∧
        (turnPrefix ts now stageDb inp).touchedTimestamp = false ∧
        (turnPrefix ts now stageDb inp).sessionStage = stageDb) ∧
      ((rateWindow ts now).length < 10 →
        (turnPrefix ts now stageDb inp).sends = []) := by
  intro ts now stageDb inp
  constructor
  · intro h
    simp only [turnPrefix]
    rw [if_pos (by simp only [List.length_append, List.length_cons, List.length_nil]; omega)]
    exact ⟨rfl, rfl, rfl, rfl, rfl⟩
  · intro h
    simp only [turnPrefix]
    rw [if_neg (by simp only [List.length_append, List.length_cons, List.length_nil]; omega)]
    split_ifs <;> rfl

/-- Claim C8 witness: the rate-limit theorem applied to a phone that already
sent ten messages in the current window. -/
theorem C8_rate_limit_witness :
    (turnPrefix (List.replicate 10 7) 7 "menu"
      { body := "1", hasBody := true, numMedia := 0 }).sends = [throttleNotice] ∧
    (turnPrefix (List.replicate 10 7) 7 "menu"
      { body := "1", hasBody := true, numMedia := 0 }).proceeded = false ∧
    (turnPrefix (List.replicate 10 7) 7 "menu"
      { body := "1", hasBody := true, numMedia := 0 }).sessionStage = "menu" := by
  have h := (C8_rate_limit (List.replicate 10 7) 7 "menu"
    { body := "1", hasBody := true, numMedia := 0 }).1 (by decide)
  exact ⟨h.1, h.2.1, h.2.2.2.2⟩

/-- Claim C5: counterexample.  From the stage "shop_product" the body "hi"
classifies as a greeting and resets the stage, but the persisted context
column of an existing session row survives the reset upsert unchanged, while
the claim requires the persisted context to be cleared. -/
theorem C5_counterexample :
    isGreeting "shop_product" "hi" = true ∧
    (resetUpsert (some { stage := "shop_product", context := "old-context" })).context =
      "old-context" ∧
    "old-context" ≠ "\x7b\x7d" ∧
    (resetUpsert (some { stage := "shop_product", context := "old-context" })).stage = "menu" := by
  refine ⟨by decide, by decide, by decide, by decide⟩

/-- Claim C5 as amended: from every non-manual stage a greeting or menu
keyword resets the in-memory session to stage "menu" with its context
cleared, and upserts the row with stage "menu"; the persisted context column
is set to the empty object only when no session row existed — for an existing
row the duplicate-key branch leaves the stored context unchanged. -/
theorem C5_reset_amended :
    ∀ (stage body : String) (m : MemSession) (row : SessRow),
      stage ≠ "manual" →
      (isGreeting stage body = true ∨ isMenu body = true) →
      greetingResetStep stage body m (some row) =
        some ({ stage := "menu", contextKeys := [] },
              { stage := "menu", context := row.context }) ∧
      greetingResetStep stage body m none =
        some ({ stage := "menu", contextKeys := [] },
              { stage := "menu", context := "\x7b\x7d" }) := by
  intro stage body m row hman hg
  have hcond : (isGreeting stage body || isMenu body) = true := by
    rcases hg with h | h <;> simp [h]
  constructor <;> simp [greetingResetStep, resetMemory, resetUpsert, hcond]

/-- Claim C5 witness: the amended reset theorem applied to a "hi" message
from the stage "shop_product" with a nonempty stored context. -/
theorem C5_reset_amended_witness :
    greetingResetStep "shop_product" "hi"
      { stage := "shop_product", contextKeys := [("k", "v")] }
      (some { stage := "shop_product", context := "old-context" }) =
      some ({ stage := "menu", contextKeys := [] },
            { stage := "menu", context := "old-context" }) := by
  exact (C5_reset_amended "shop_product" "hi"
    { stage := "shop_product", contextKeys := [("k", "v")] }
    { stage := "shop_product", context := "old-context" }
    (by decide) (Or.inl (by decide))).1

/-- Claim C6: from shop_top_category, free text that is not a valid selection
and looks conversational moves the session to confirm_exit_flow with the
question and the prior stage stashed; replying "yes" (or "1") lands the
session in custom_solutions and routes the stashed question to the RAG
engine; replying "no" restores exactly the stashed previous stage and prompts
for a selection; and neither "yes" nor "no" nor "1" is intercepted by the
greeting or menu classifiers on the way to the confirm_exit_flow handler. -/
theorem C6_interrupt_resume :
    ∀ (s : Sess) (catsLen midLen : ℕ) (body : String),
      s.stage = "shop_top_category" →
      shopSelectionInvalid catsLen body = true →
      isConversational body = true →
      isGreeting "shop_top_category" body = false →
      isMenu body = false →
      ((shopTopCategoryStep s catsLen midLen body).1.stage = "confirm_exit_flow" ∧
       (shopTopCategoryStep s catsLen midLen body).1.previousStage =
         some "shop_top_category" ∧
       (shopTopCategoryStep s catsLen midLen body).1.pendingQuestion = some body) ∧
      ((confirmExitStep (shopTopCategoryStep s catsLen midLen body).1 "yes").sess.stage =
         "custom_solutions" ∧
       (confirmExitStep (shopTopCategoryStep s catsLen midLen body).1 "yes").ragQuery =
         some body ∧
       (confirmExitStep (shopTopCategoryStep s catsLen midLen body).1 "1").sess.stage =
         "custom_solutions" ∧
       (confirmExitStep (shopTopCategoryStep s catsLen midLen body).1 "no").sess.stage =
         "shop_top_category" ∧
       (confirmExitStep (shopTopCategoryStep s catsLen midLen body).1 "no").sess.previousStage =
         none ∧
       (confirmExitStep (shopTopCategoryStep s catsLen midLen body).1 "no").sends =
         ["Okay, continuing with your order. Please make a selection."]) ∧
      isGreeting "confirm_exit_flow" "yes" = false ∧ isMenu "yes" = false ∧
      isGreeting "confirm_exit_flow" "no" = false ∧ isMenu "no" = false ∧
      isGreeting "confirm_exit_flow" "1" = false ∧ isMenu "1" = false := by
  intro s catsLen midLen body hs hinv hconv _hg _hm
  have hstep : (shopTopCategoryStep s catsLen midLen body).1 =
      { stage := "confirm_exit_flow", previousStage := some s.stage,
        pendingQuestion := some body } := by
    simp [shopTopCategoryStep, hinv, hconv]
  rw [hstep, hs]
  refine ⟨⟨rfl, rfl, rfl⟩, ⟨?_, ?_, ?_, ?_, ?_, ?_⟩, by decide, by decide, by decide,
    by decide, by decide, by decide⟩ <;> simp [confirmExitStep]

/-- Claim C6 witness: the interrupt-resume theorem applied to the free text
"what is your return policy" sent from shop_top_category with three
categories listed. -/
theorem C6_interrupt_resume_witness :
    ((shopTopCategoryStep sessShopTop 3 2 "what is your return policy").1.stage =
      "confirm_exit_flow" ∧
     (shopTopCategoryStep sessShopTop 3 2 "what is your return policy").1.previousStage =
      some "shop_top_category" ∧
     (shopTopCategoryStep sessShopTop 3 2 "what is your return policy").1.pendingQuestion =
      some "what is your return policy") ∧
    ((confirmExitStep (shopTopCategoryStep sessShopTop 3 2
        "what is your return policy").1 "yes").sess.stage = "custom_solutions" ∧
     (confirmExitStep (shopTopCategoryStep sessShopTop 3 2
        "what is your return policy").1 "yes").ragQuery =
      some "what is your return policy" ∧
     (confirmExitStep (shopTopCategoryStep sessShopTop 3 2
        "what is your return policy").1 "1").sess.stage = "custom_solutions" ∧
     (confirmExitStep (shopTopCategoryStep sessShopTop 3 2
        "what is your return policy").1 "no").sess.stage = "shop_top_category" ∧
     (confirmExitStep (shopTopCategoryStep sessShopTop 3 2
        "what is your return policy").1 "no").sess.previousStage = none ∧
     (confirmExitStep (shopTopCategoryStep sessShopTop 3 2
        "what is your return policy").1 "no").sends =
      ["Okay, continuing with your order. Please make a selection."]) ∧
    isGreeting "confirm_exit_flow" "yes" = false ∧ isMenu "yes" = false ∧
    isGreeting "confirm_exit_flow" "no" = false ∧ isMenu "no" = false ∧
    isGreeting "confirm_exit_flow" "1" = false ∧ isMenu "1" = false := by
  exact C6_interrupt_resume sessShopTop 3 2 "what is your return policy"
    rfl (by decide) (by decide) (by decide) (by decide)

/-- Claim C7: counterexample.  The /product/verify handler marks a PENDING
order PAID for any request, without recomputing or comparing any signature:
the handler does not even consult the razorpay_signature field it
destructures, so the PENDING-to-PAID transition is not restricted to verified
callbacks. -/
theorem C7_counterexample :
    (productVerify { status := "PENDING", paymentId := none } "pay_1").status = "PAID" ∧
    "PENDING" ≠ "PAID" := by
  refine ⟨rfl, by decide⟩

/-- Claim C7 as amended: the /verify-product handler recomputes the HMAC over
order-id, a pipe and payment-id, marks the order PAID exactly when the
recomputed signature equals the provided one and leaves the order unchanged
with an error response on mismatch; the /product/verify handler, however,
marks the order PAID unconditionally with no signature comparison. -/
theorem C7_payment_verification_amended :
    ∀ (hmacSig : String → String) (o : OrderPayState) (oid pid sig : String),
      (hmacSig (oid ++ "|" ++ pid) ≠ sig → verifyProduct hmacSig o oid pid sig = (o, false)) ∧
      (hmacSig (oid ++ "|" ++ pid) = sig →
        verifyProduct hmacSig o oid pid sig =
          ({ o with status := "PAID", paymentId := some pid }, true)) ∧
      productVerify o pid = { o with status := "PAID", paymentId := some pid } := by
  intro hmacSig o oid pid sig
  refine ⟨fun h => ?_, fun h => ?_, rfl⟩
  · simp [verifyProduct, h]
  · simp [verifyProduct, h]

/-- Claim C7 witness: the amended verification theorem applied to a concrete
order with a mismatched and then a matching signature. -/
theorem C7_payment_verification_amended_witness :
    verifyProduct (fun _ => "SIG") { status := "PENDING", paymentId := none }
      "o1" "p1" "WRONG" = ({ status := "PENDING", paymentId := none }, false) ∧
    verifyProduct (fun _ => "SIG") { status := "PENDING", paymentId := none }
      "o1" "p1" "SIG" = ({ status := "PAID", paymentId := some "p1" }, true) := by
  constructor
  · exact (C7_payment_verification_amended (fun _ => "SIG")
      { status := "PENDING", paymentId := none } "o1" "p1" "WRONG").1 (by decide)
  · exact (C7_payment_verification_amended (fun _ => "SIG")
      { status := "PENDING", paymentId := none } "o1" "p1" "SIG").2.1 rfl

/-- Claim C10: counterexample.  With a two-player booking pending payment and
ample remaining capacity, the inbound body "hi paid" contains the substring
"paid", yet the greeting classifier intercepts it before the payment_pending
handler runs: the session is reset to the menu and the booking is neither
confirmed nor cancelled, contradicting the claim that every body containing
"paid" triggers the confirm-or-cancel path. -/
theorem C10_counterexample :
    strContains "hi paid" "paid" = true ∧
    isSlotAvailableForPlayers [⟨0, 2, BkStatus.pending_payment⟩] 0 2 = true ∧
    paymentPendingTurn [⟨0, 2, BkStatus.pending_payment⟩] 0 "hi paid" =
      { bookings := [⟨0, 2, BkStatus.pending_payment⟩], stage := "menu" } := by
  refine ⟨by decide, by decide, by decide⟩

/-- Claim C10 as amended: while the session is in payment_pending, an inbound
text body that is not classified as a greeting or menu keyword and contains
the substring "paid" marks the pending booking confirmed when the
isSlotAvailableForPlayers re-check passes — a re-check that counts the
pending booking itself — and cancels the booking otherwise, with no payment
id or signature consulted anywhere on the path. -/
theorem C10_paid_confirm_amended :
    ∀ (st : List Bkg) (i : ℕ) (b : Bkg) (body : String),
      isGreeting "payment_pending" body = false → isMenu body = false →
      strContains body "paid" = true → st.get? i = some b →
      paymentPendingTurn st i body =
        if isSlotAvailableForPlayers st b.key b.playerCount then
          { bookings := updateAt st i (fun b0 => { b0 with status := BkStatus.confirmed }),
            stage := "booking_confirmed" }
        else
          { bookings := updateAt st i (fun b0 => { b0 with status := BkStatus.cancelled }),
            stage := "menu" } := by
  intro st i b body hg hm hp hget
  have hget2 : st[i]? = some b := by simpa [List.get?_eq_getElem?] using hget
  simp [paymentPendingTurn, hg, hm, hp, hget2]

/-- Claim C10 witness: the amended theorem applied to the body "paid" for a
two-player pending booking whose slot still has capacity, yielding a
confirmed booking. -/
theorem C10_paid_confirm_amended_witness :
    paymentPendingTurn [⟨0, 2, BkStatus.pending_payment⟩] 0 "paid" =
      { bookings := [⟨0, 2, BkStatus.confirmed⟩], stage := "booking_confirmed" } := by
  have h := C10_paid_confirm_amended [⟨0, 2, BkStatus.pending_payment⟩] 0
    ⟨0, 2, BkStatus.pending_payment⟩ "paid" (by decide) (by decide) (by decide) (by decide)
  rw [h]
  decide
